import Mathlib

/-!
Verification of the retrieval-augmented chat pipeline of the IIM Sambalpur GPT
repository: keyword retrieval and scoring (src/lib/retrieval.ts), prompt
assembly under a token budget (src/lib/prompt-builder.ts), API-key rotation in
the OpenRouter client, and the sentence-window chunker of the ingestion script
(src/scripts/upload-to-supabase.ts).

JavaScript strings are modeled as lists of characters (`Str`); this matches
JS semantics on the ASCII data the program manipulates.  The JS `number`
values produced by the scorers are exact quotients of small naturals, which
IEEE doubles order exactly like the rationals they denote; a score is kept as
an explicit numerator/denominator pair (`JsNum`) and `simVal` gives its value
in `ℚ`.
-/

namespace IIMSambalpurGpt

/-- JavaScript strings, modeled as lists of characters. -/
abbrev Str := List Char

/-- Embed a Lean string literal as a JS string. -/
def str (s : String) : Str := s.data

/-- JS `String.prototype.toLowerCase` (ASCII). -/
def jsToLower (s : Str) : Str := s.map Char.toLower

/-- JS `haystack.includes(needle)`: substring containment. -/
def includes (s pat : Str) : Bool := decide (pat <:+: s)

/-- JS `String.prototype.trim`. -/
def jsTrim (s : Str) : Str :=
  ((s.dropWhile Char.isWhitespace).reverse.dropWhile Char.isWhitespace).reverse

/-- Worker for `jsWords`.  The flag records whether we are inside a
whitespace run (the regex `\s+` consumes a maximal run); `acc` is the
current token, reversed. -/
def jsWordsAux : Bool → Str → Str → List Str
  | false, [], acc => [acc.reverse]
  | false, c :: rest, acc =>
    if c.isWhitespace then acc.reverse :: jsWordsAux true rest []
    else jsWordsAux false rest (c :: acc)
  | true, [], _ => [[]]
  | true, c :: rest, acc =>
    if c.isWhitespace then jsWordsAux true rest acc
    else jsWordsAux false rest [c]

/-- JS `s.split(/\s+/)`: split on maximal whitespace runs (leading or
trailing runs contribute an empty token, as in JS). -/
def jsWords (s : Str) : List Str := jsWordsAux false s []

/-- An exact JS number of the form `num / den`, kept unreduced.  All the
similarity scores in this program are such quotients, and IEEE doubles
compare them exactly like the rationals they denote. -/
structure JsNum where
  num : Nat
  den : Nat
deriving DecidableEq

/-- The rational value of a `JsNum`. -/
def simVal (x : JsNum) : ℚ := (x.num : ℚ) / (x.den : ℚ)

/-- JS `x > 0` for a score `x` (the denominators produced by the scorers are
always positive, so positivity of the value is positivity of the numerator). -/
def JsNum.posB (x : JsNum) : Bool := decide (0 < x.num)

/-! ## src/lib/prompt-builder.ts -/

/-- `RetrievedChunk` (src/lib/prompt-builder.ts). -/
structure RetrievedChunk where
  chunk_id : Str
  source_url : Str
  page_title : Str
  text : Str
  similarity : JsNum
deriving DecidableEq

/-- `BuiltPrompt` (src/lib/prompt-builder.ts). -/
structure BuiltPrompt where
  systemPrompt : Str
  userPrompt : Str
  contextUsed : List RetrievedChunk
  tokenEstimate : Nat

/-- The ordering used by `[...retrievedChunks].sort((a, b) => b.similarity -
a.similarity)`: `a` precedes `b` when `b.similarity ≤ a.similarity`
(descending similarity; JS `Array.prototype.sort` is stable). -/
def chunkGE (a b : RetrievedChunk) : Prop :=
  simVal b.similarity ≤ simVal a.similarity

instance : DecidableRel chunkGE := fun a b =>
  inferInstanceAs (Decidable (simVal b.similarity ≤ simVal a.similarity))

instance : IsTotal RetrievedChunk chunkGE :=
  ⟨fun a b => le_total (simVal b.similarity) (simVal a.similarity)⟩

instance : IsTrans RetrievedChunk chunkGE :=
  ⟨fun _ _ _ h1 h2 => le_trans h2 h1⟩

/-- The stable descending-similarity sort of line 108 of prompt-builder.ts.
A stable sort is determined by the order relation together with stability,
so insertion sort is extensionally the JS engine sort. -/
def sortChunks (chunks : List RetrievedChunk) : List RetrievedChunk :=
  List.insertionSort chunkGE chunks

/-- `estimateTokens` (src/lib/prompt-builder.ts line 72): `Math.ceil(text.length / 4)`. -/
def estimateTokens (text : Str) : Nat := (text.length + 3) / 4

/-- The fixed persona block `SYSTEM_PROMPT` of src/lib/prompt-builder.ts. -/
def SYSTEM_PROMPT : Str := str
  ("You are **IIM Sambalpur GPT**, the official AI academic assistant for the institute.\n\n"
  ++ "## YOUR ROLE:\n"
  ++ "- You are a helpful, professional, and precise academic assistant.\n"
  ++ "- You strictly stick to official data but converse naturally.\n"
  ++ "- **Accuracy is your top priority.** Never guess.\n\n"
  ++ "## OFFICIAL FACULTY-COURSE MAPPING (BS Data Science & AI):\n"
  ++ "| Course | Faculty |\n"
  ++ "|--------|---------|\n"
  ++ "| Philosophy & Sociology | Prof. Sujit |\n"
  ++ "| Mathematics | Prof. Varun Bharadwaj |\n"
  ++ "| Programming Language | Prof. Pooja Jain |\n"
  ++ "| Positive Psychology | Prof. G.S. Pathak |\n"
  ++ "| Oral Communication | Prof. Rihana Sheikh & Prof. Diti |\n\n"
  ++ "## GUIDELINES:\n\n"
  ++ "1. **Faculty Questions:** \n"
  ++ "   - Use the table above or the provided documents. \n"
  ++ "   - If a faculty member isn\x27t listed for a specific course, say: \"The official instructor for this course hasn\x27t been specified in the public documents.\"\n\n"
  ++ "2. **No Hallucinations:**\n"
  ++ "   - Do not invent exam patterns, dates, or alumni names.\n"
  ++ "   - If info is missing, just say it.\n\n"
  ++ "3. **Tone & Style:**\n"
  ++ "   - **Be Direct:** Answer the question first. No fluff.\n"
  ++ "   - **Be Helpful:** Suggest what the student should do next (e.g., check the handbook, contact valid emails).\n"
  ++ "   - **Natural Language:** Do NOT use rigid headers like \"Direct Answer:\" or \"What is Known:\". Just write a coherent, helpful response.\n\n"
  ++ "4. **Formatting:**\n"
  ++ "   - Use **bold** for important names and dates.\n"
  ++ "   - Use lists for clarity.\n"
  ++ "   - Use LaTeX ($$ ... $$) for math.\n\n"
  ++ "5. **Sample Problems & Syllabus:**\n"
  ++ "   - If asked for sample problems, **ONLY** generate problems for topics **explicitly listed** in the provided course outline context.\n"
  ++ "   - Do **NOT** generate generic problems (e.g., Financial Math, Diff Eq) unless those specific topics appear in the context.\n"
  ++ "   - If you don\x27t see the syllabus, say: \"I need to see the official course outline to generate relevant problems.\"\n\n"
  ++ "## DEFAULT SAFE RESPONSE:\n"
  ++ "\"I don\x27t have that specific information in the official IIM Sambalpur documents currently available.\"")

/-- The confidence tier used by `buildContextBlock`: `HIGH` above 0.8,
`MEDIUM` above 0.6, otherwise `LOW`. -/
def confidenceTier (similarity : JsNum) : Str :=
  if (8 : ℚ) / 10 < simVal similarity then str "HIGH"
  else if (6 : ℚ) / 10 < simVal similarity then str "MEDIUM"
  else str "LOW"

/-- `buildContextBlock` (src/lib/prompt-builder.ts lines 79-97). -/
def buildContextBlock (chunks : List RetrievedChunk) : Str :=
  if chunks.length = 0 then str "No relevant context found for this query."
  else
    List.intercalate (str "\n")
      (chunks.enum.map (fun ic =>
        str "\n---\n**Context " ++ str (Nat.repr (ic.1 + 1)) ++ str "** (Relevance: "
        ++ confidenceTier ic.2.similarity ++ str ")\n**Source:** " ++ ic.2.page_title
        ++ str "\n**URL:** " ++ ic.2.source_url ++ str "\n\n"
        ++ jsTrim ic.2.text ++ str "\n---"))

/-- The greedy selection loop of `buildPrompt` (lines 111-120): accept a
chunk whenever the running total plus its estimate stays within the budget. -/
def selectLoop (maxContextTokens : Nat) : List RetrievedChunk → Nat → List RetrievedChunk
  | [], _ => []
  | chunk :: rest, currentTokens =>
    let chunkTokens := estimateTokens chunk.text
    if currentTokens + chunkTokens ≤ maxContextTokens then
      chunk :: selectLoop maxContextTokens rest (currentTokens + chunkTokens)
    else
      selectLoop maxContextTokens rest currentTokens

/-- `buildPrompt` (src/lib/prompt-builder.ts lines 102-146), together with
the post-call contents of the `retrievedChunks` argument array.  Line 108
sorts a spread copy `[...retrievedChunks]`, so no operation of the body is
ever applied to the argument array itself: its final contents are its
initial contents. -/
def buildPromptF (userMessage : Str) (retrievedChunks : List RetrievedChunk)
    (maxContextTokens : Nat) : BuiltPrompt × List RetrievedChunk :=
  let sortedChunks := sortChunks retrievedChunks
  let selectedChunks := selectLoop maxContextTokens sortedChunks 0
  let contextBlock := buildContextBlock selectedChunks
  let fullSystemPrompt := SYSTEM_PROMPT
    ++ str "\n\n## CONTEXT FROM IIM SAMBALPUR DATABASE:\n\n"
    ++ contextBlock
    ++ str "\n\n## END OF CONTEXT\n\nRemember: ONLY use information from the above context. If the answer is not there, say \"Based on available public IIM Sambalpur data, this information is not available.\""
  ({ systemPrompt := fullSystemPrompt
     userPrompt := userMessage
     contextUsed := selectedChunks
     tokenEstimate := estimateTokens fullSystemPrompt + estimateTokens userMessage },
   retrievedChunks)

/-- `buildPrompt` proper: the `BuiltPrompt` returned to the caller
(the default budget in the source is 8000). -/
def buildPrompt (userMessage : Str) (retrievedChunks : List RetrievedChunk)
    (maxContextTokens : Nat) : BuiltPrompt :=
  (buildPromptF userMessage retrievedChunks maxContextTokens).1

/-! ## src/lib/retrieval.ts -/

/-- The stop-word set of `retrieveChunks` (line 68). -/
def stopwords : List Str :=
  [str "the", str "and", str "for", str "are", str "but", str "not", str "you",
   str "all", str "can", str "her", str "was", str "one", str "our", str "out",
   str "what", str "about", str "which", str "when", str "how", str "who",
   str "where", str "why", str "does", str "have", str "has", str "is",
   str "in", str "it", str "of", str "to", str "a", str "an", str "be",
   str "at", str "as", str "by", str "from", str "or", str "on", str "with",
   str "that", str "this"]

/-- The synonym map of `retrieveChunks` (lines 53-65), in the insertion
order of the object literal (the order `Object.entries` iterates). -/
def synonyms : List (Str × List Str) :=
  [(str "statistics", [str "statistics", str "stats", str "p&s", str "probability"]),
   (str "mathematics", [str "mathematics", str "math", str "maths", str "calculus", str "algebra"]),
   (str "professor", [str "professor", str "prof", str "faculty", str "teaches", str "instructor"]),
   (str "syllabus", [str "syllabus", str "curriculum", str "course", str "outline", str "topics"]),
   (str "schedule", [str "schedule", str "timetable", str "calendar", str "timing", str "class"]),
   (str "data", [str "data", str "dsai", str "ds&ai", str "datascience"]),
   (str "science", [str "science", str "dsai", str "ds&ai"]),
   (str "semester", [str "semester", str "sem", str "term", str "year"]),
   (str "first", [str "first", str "1st", str "sem-i", str "semester-1", str "sem-1"]),
   (str "yoga", [str "yoga", str "meditation", str "mindfulness"]),
   (str "psychology", [str "psychology", str "positive", str "behavioral"])]

/-- Keyword extraction (lines 69-73): lowercase, split on whitespace, keep
tokens of length at least 3 that are not stop-words, truncate to 5. -/
def extractKeywords (query : Str) : List Str :=
  (((jsWords (jsToLower query)).filter
      (fun w => 3 ≤ w.length ∧ w ∉ stopwords)).take 5)

/-- `Set.prototype.add`: append if not already present (JS sets iterate in
insertion order). -/
def insertUniq (l : List Str) (s : Str) : List Str :=
  if s ∈ l then l else l ++ [s]

/-- One iteration of the expansion loop (lines 77-85): add the keyword, then
for every synonym entry whose key equals it or whose synonym list contains
it, add every synonym of that entry. -/
def addSynonyms (acc : List Str) (kw : Str) : List Str :=
  synonyms.foldl
    (fun acc entry =>
      if kw = entry.1 ∨ kw ∈ entry.2 then entry.2.foldl insertUniq acc else acc)
    (insertUniq acc kw)

/-- The expanded keyword list (lines 76-86): expand each extracted keyword
against the synonym map, truncate to 10. -/
def expandKeywords (query : Str) : List Str :=
  (((extractKeywords query).foldl addSynonyms []).take 10)

/-- A row of the `chunks` table as selected by `retrieveChunks`
(`id, source_url, page_title, content`). -/
structure Row where
  id : Str
  source_url : Str
  page_title : Str
  content : Str
deriving DecidableEq

/-- The scoring step of `retrieveChunks` (lines 115-132): one point per
keyword contained in the lowercased content, three per keyword contained in
the lowercased title, normalized by `keywords.length * 4`. -/
def scoreRow (keywords : List Str) (row : Row) : RetrievedChunk :=
  let contentLower := jsToLower row.content
  let titleLower := jsToLower row.page_title
  let score := keywords.foldl
    (fun score kw =>
      let score := if includes contentLower kw then score + 1 else score
      if includes titleLower kw then score + 3 else score)
    0
  { chunk_id := row.id
    source_url := row.source_url
    page_title := row.page_title
    text := row.content
    similarity := { num := score, den := keywords.length * 4 } }

/-- `data.map(...)` of the scoring step. -/
def scoreChunks (keywords : List Str) (data : List Row) : List RetrievedChunk :=
  data.map (scoreRow keywords)

/-- Lines 135-137: sort by score descending (stable) and keep the top K. -/
def rankChunks (scored : List RetrievedChunk) (topK : Nat) : List RetrievedChunk :=
  (sortChunks scored).take topK

/-- The configuration error thrown by `getSupabaseClient` (line 20):
`Supabase credentials not configured`. -/
inductive RetrievalError where
  | supabaseNotConfigured
deriving DecidableEq

/-- `retrieveChunks` (src/lib/retrieval.ts lines 45-143).

`cfgOk` is whether `NEXT_PUBLIC_SUPABASE_URL` and
`SUPABASE_SERVICE_ROLE_KEY` are both set: when they are not,
`getSupabaseClient()` (called on line 49, before the `try` block) throws a
configuration error that propagates to the caller.  `store` abstracts the
Supabase query of lines 98-102 (the `.or(...)` filter applied to the
expanded keywords, with `limit(topK * 3)`): `none` models a query error or a
null `data`, which the code turns into an empty result (throw caught on line
139, or the `!data` check).  The second component of a successful result
counts how many queries were sent to the chunk store. -/
def retrieveChunks (cfgOk : Bool) (store : List Str → Option (List Row))
    (query : Str) (topK : Nat) :
    Except RetrievalError (List RetrievedChunk × Nat) :=
  if !cfgOk then Except.error RetrievalError.supabaseNotConfigured
  else
    let keywords := expandKeywords query
    if keywords.length = 0 then Except.ok ([], 0)
    else
      match store keywords with
      | none => Except.ok ([], 1)
      | some data =>
        if data.length = 0 then Except.ok ([], 1)
        else Except.ok (rankChunks (scoreChunks keywords data) topK, 1)

/-- An entry of `data/chunks.json` as used by `retrieveChunksLocal`
(the fields the function reads; the spread `{...chunk}` carries the record
through unchanged). -/
structure LocalChunk where
  page_title : Str
  text : Str
deriving DecidableEq

/-- A local chunk with the transient similarity attached. -/
structure LocalScored where
  chunk : LocalChunk
  similarity : JsNum
deriving DecidableEq

/-- Descending-similarity order for the local path sort (line 184). -/
def localGE (a b : LocalScored) : Prop :=
  simVal b.similarity ≤ simVal a.similarity

instance : DecidableRel localGE := fun a b =>
  inferInstanceAs (Decidable (simVal b.similarity ≤ simVal a.similarity))

instance : IsTotal LocalScored localGE :=
  ⟨fun a b => le_total (simVal b.similarity) (simVal a.similarity)⟩

instance : IsTrans LocalScored localGE :=
  ⟨fun _ _ _ h1 h2 => le_trans h2 h1⟩

/-- The scoring step of `retrieveChunksLocal` (lines 164-179): skip words
shorter than 3 characters, one point for a text match, two for a title
match, normalized by the raw word count of the query. -/
def scoreLocal (queryWords : List Str) (chunk : LocalChunk) : LocalScored :=
  let text := jsToLower chunk.text
  let title := jsToLower chunk.page_title
  let score := queryWords.foldl
    (fun score word =>
      if word.length < 3 then score
      else
        let score := if includes text word then score + 1 else score
        if includes title word then score + 2 else score)
    0
  { chunk := chunk, similarity := { num := score, den := queryWords.length } }

/-- `retrieveChunksLocal` (src/lib/retrieval.ts lines 148-191).  `chunksFile`
abstracts reading `data/chunks.json`: `none` models a read/parse error,
which the catch block turns into an empty result. -/
def retrieveChunksLocal (chunksFile : Option (List LocalChunk))
    (query : Str) (topK : Nat) : List LocalScored :=
  match chunksFile with
  | none => []
  | some chunks =>
    let queryWords := jsWords (jsToLower query)
    let scoredChunks := chunks.map (scoreLocal queryWords)
    ((List.insertionSort localGE
        (scoredChunks.filter (fun c => c.similarity.posB))).take topK)

/-! ## The OpenRouter client (key rotation) -/

/-- `shouldRotateKey` (openrouter client, line 86): rotate on HTTP 429, 401
or 403. -/
def shouldRotateKey (status : Nat) : Bool :=
  status == 429 || status == 401 || status == 403

/-- The observable outcome of one `fetch` attempt: a completed response
with an HTTP status, or a throw inside the `try` block (network error,
missing body, JSON parse failure). -/
inductive Outcome where
  | status (s : Nat)
  | thrown
deriving DecidableEq

/-- How a call to the client ends.  `exhausted` is the terminal
`All OpenRouter API keys exhausted or failed` error thrown after the
attempt loop; `configError` is the `No OpenRouter API keys configured`
error thrown by `getCurrentKey`; `success i` is a normal return produced
while key index `i` was current. -/
inductive ChatResult where
  | success (keyIndex : Nat)
  | exhausted
  | configError
deriving DecidableEq

/-- One pass of the attempt loop of `chatCompletion` /
`chatCompletionStream` (lines 98-144): `numKeys` is `API_KEYS.length`,
`attempt` the loop counter, the second argument the remaining iterations,
and the last the current key index.  Per the source: `getCurrentKey` throws
when the pool is empty; a rotate-worthy status always rotates and
continues; a non-ok, non-rotate status throws inside `try`; any throw is
caught and rotates only while `attempt < maxAttempts - 1`.  Returns the
list of key indices used by the attempts, in order, and how the call
ended. -/
def attemptLoop (numKeys : Nat) (outcomes : Nat → Outcome) :
    Nat → Nat → Nat → List Nat × ChatResult
  | _, 0, _ => ([], ChatResult.exhausted)
  | attempt, remaining + 1, i =>
    if numKeys = 0 then ([], ChatResult.configError)
    else
      match outcomes attempt with
      | Outcome.status s =>
        if shouldRotateKey s then
          let rest := attemptLoop numKeys outcomes (attempt + 1) remaining ((i + 1) % numKeys)
          (i :: rest.1, rest.2)
        else if 200 ≤ s ∧ s < 300 then ([i], ChatResult.success i)
        else
          let nextIdx := if attempt < numKeys - 1 then (i + 1) % numKeys else i
          let rest := attemptLoop numKeys outcomes (attempt + 1) remaining nextIdx
          (i :: rest.1, rest.2)
      | Outcome.thrown =>
        let nextIdx := if attempt < numKeys - 1 then (i + 1) % numKeys else i
        let rest := attemptLoop numKeys outcomes (attempt + 1) remaining nextIdx
        (i :: rest.1, rest.2)

/-- `chatCompletion` (lines 93-147): run `maxAttempts = API_KEYS.length`
attempts starting from the current module-level key index `i0`. -/
def chatCompletion (numKeys i0 : Nat) (outcomes : Nat → Outcome) :
    List Nat × ChatResult :=
  attemptLoop numKeys outcomes 0 numKeys i0

/-- `chatCompletionStream` (lines 153-209): identical rotation control flow
(the missing-body check only affects successful responses, and a throw there
lands in the same catch). -/
def chatCompletionStream (numKeys i0 : Nat) (outcomes : Nat → Outcome) :
    List Nat × ChatResult :=
  attemptLoop numKeys outcomes 0 numKeys i0

/-- An attempt outcome that fails in a way covered by the rotation claim:
HTTP 429, 401 or 403, or a throw (network error). -/
def attemptFails : Outcome → Prop
  | Outcome.status s => shouldRotateKey s = true
  | Outcome.thrown => True

instance : DecidablePred attemptFails := fun o =>
  match o with
  | Outcome.status s => inferInstanceAs (Decidable (shouldRotateKey s = true))
  | Outcome.thrown => inferInstanceAs (Decidable True)

/-! ## src/scripts/upload-to-supabase.ts (the chunker) -/

/-- `MIN_CHUNK_WORDS` (line 247). -/
def MIN_CHUNK_WORDS : Nat := 100

/-- `MAX_CHUNK_WORDS` (line 248). -/
def MAX_CHUNK_WORDS : Nat := 400

/-- `sentence.split(/\s+/).length`: the word count the chunker uses. -/
def wordCount (s : Str) : Nat := (jsWords s).length

/-- Worker for `splitIntoSentences`: split at every maximal whitespace run
whose preceding character is `.`, `!` or `?` (the regex
`/(?<=[.!?])\s+/`).  The flag records whether we are consuming such a run;
`acc` is the current sentence, reversed. -/
def sentencesAux : Bool → Str → Str → List Str
  | false, [], acc => [acc.reverse]
  | false, c :: rest, acc =>
    if c.isWhitespace ∧ (acc.head? = some '.' ∨ acc.head? = some '!' ∨ acc.head? = some '?') then
      acc.reverse :: sentencesAux true rest []
    else sentencesAux false rest (c :: acc)
  | true, [], _ => [[]]
  | true, c :: rest, acc =>
    if c.isWhitespace then sentencesAux true rest acc
    else sentencesAux false rest [c]

/-- `splitIntoSentences` (lines 366-370). -/
def splitIntoSentences (text : Str) : List Str :=
  (sentencesAux false text []).filter (fun s => 0 < (jsTrim s).length)

/-- The sentence-accumulation loop of `chunkSourceBlock` (lines 381-426),
instrumented: the first component collects the flushed windows that met the
word-count minimum (with their word count at flush time, stored in the
chunk), the second the flushed windows that were silently discarded for
being too small.  A flush happens when adding the next sentence would
exceed `MAX_CHUNK_WORDS`; the last two sentences are kept as overlap; the
final window is kept under the more lenient bound `MIN_CHUNK_WORDS / 2`. -/
def chunkLoop : List Str → List Str → Nat → List (List Str × Nat) × List (List Str)
  | [], currentChunk, currentWordCount =>
    if currentChunk.length = 0 then ([], [])
    else if MIN_CHUNK_WORDS / 2 ≤ currentWordCount then ([(currentChunk, currentWordCount)], [])
    else ([], [currentChunk])
  | sentence :: rest, currentChunk, currentWordCount =>
    let sentenceWords := wordCount sentence
    if MAX_CHUNK_WORDS < currentWordCount + sentenceWords ∧ 0 < currentChunk.length then
      let overlapSentences := currentChunk.drop (currentChunk.length - 2)
      let overlapCount := wordCount (List.intercalate (str " ") overlapSentences)
      let rest' := chunkLoop rest (overlapSentences ++ [sentence]) (overlapCount + sentenceWords)
      if MIN_CHUNK_WORDS ≤ currentWordCount then
        ((currentChunk, currentWordCount) :: rest'.1, rest'.2)
      else (rest'.1, currentChunk :: rest'.2)
    else
      chunkLoop rest (currentChunk ++ [sentence]) (currentWordCount + sentenceWords)

/-- A source block of the ingestion dataset (the fields the chunker reads). -/
structure SourceBlock where
  source_url : Str
  page_title : Str
  text_content : Str
deriving DecidableEq

/-- A produced chunk (the deterministic fields; the source also attaches a
random `chunk_id` and derived `tags`, which no claim concerns). -/
structure ChunkRec where
  source_url : Str
  page_title : Str
  text : Str
  word_count : Nat
deriving DecidableEq

/-- Both flush streams of the chunker on a block's text. -/
def chunkWindows (text : Str) : List (List Str × Nat) × List (List Str) :=
  chunkLoop (splitIntoSentences text) [] 0

/-- The chunk built from a kept window: `currentChunk.join(' ').trim()`
with the word count at flush time. -/
def windowChunk (block : SourceBlock) (wc : List Str × Nat) : ChunkRec :=
  { source_url := block.source_url
    page_title := block.page_title
    text := jsTrim (List.intercalate (str " ") wc.1)
    word_count := wc.2 }

/-- `chunkSourceBlock` (lines 375-429): the chunks actually produced. -/
def chunkSourceBlock (block : SourceBlock) : List ChunkRec :=
  (chunkWindows block.text_content).1.map (windowChunk block)

/-! ## Theorems -/

/-- The key indices a failing run visits: `i, i+1, …` taken modulo the pool
size. -/
def idxTrace (numKeys count i : Nat) : List Nat :=
  (List.range count).map (fun k => (i + k) % numKeys)

lemma idxTrace_zero (numKeys i : Nat) : idxTrace numKeys 0 i = [] := rfl

lemma idxTrace_succ (numKeys r i : Nat) :
    idxTrace numKeys (r + 1) i = i % numKeys :: idxTrace numKeys r ((i + 1) % numKeys) := by
  simp only [idxTrace, List.range_succ_eq_map, List.map_cons, List.map_map, Nat.add_zero]
  refine congrArg _ (List.map_congr_left fun k _ => ?_)
  simp only [Function.comp_apply, Nat.mod_add_mod]
  have h : i + 1 + k = i + (k + 1) := by omega
  rw [h]

lemma length_idxTrace (numKeys count i : Nat) :
    (idxTrace numKeys count i).length = count := by
  simp [idxTrace]

lemma idxTrace_nodup (numKeys i : Nat) : (idxTrace numKeys numKeys i).Nodup := by
  rcases Nat.eq_zero_or_pos numKeys with h0 | hpos
  · simp [idxTrace, h0]
  · refine List.Nodup.map_on ?_ (List.nodup_range numKeys)
    intro a ha b hb hab
    rw [List.mem_range] at ha hb
    have h : a % numKeys = b % numKeys := Nat.ModEq.add_left_cancel' i hab
    rwa [Nat.mod_eq_of_lt ha, Nat.mod_eq_of_lt hb] at h

lemma attemptLoop_rotate (numKeys : Nat) (outcomes : Nat → Outcome)
    (attempt r i s : Nat) (hne : ¬ numKeys = 0)
    (h : outcomes attempt = Outcome.status s) (hs : shouldRotateKey s = true) :
    attemptLoop numKeys outcomes attempt (r + 1) i
      = (i :: (attemptLoop numKeys outcomes (attempt + 1) r ((i + 1) % numKeys)).1,
         (attemptLoop numKeys outcomes (attempt + 1) r ((i + 1) % numKeys)).2) := by
  simp only [attemptLoop, h, if_neg hne, if_pos hs]

lemma attemptLoop_thrown (numKeys : Nat) (outcomes : Nat → Outcome)
    (attempt r i : Nat) (hne : ¬ numKeys = 0)
    (h : outcomes attempt = Outcome.thrown) :
    attemptLoop numKeys outcomes attempt (r + 1) i
      = (i :: (attemptLoop numKeys outcomes (attempt + 1) r
                 (if attempt < numKeys - 1 then (i + 1) % numKeys else i)).1,
         (attemptLoop numKeys outcomes (attempt + 1) r
             (if attempt < numKeys - 1 then (i + 1) % numKeys else i)).2) := by
  simp only [attemptLoop, h, if_neg hne]

/-- On a run in which every attempt fails with a rotate-worthy status or a
throw, the attempt loop visits `i, i+1, …` modulo the pool size and ends
exhausted.  `r` is the number of remaining iterations. -/
lemma attemptLoop_all_fail (numKeys : Nat) (outcomes : Nat → Outcome)
    (hfail : ∀ k, k < numKeys → attemptFails (outcomes k)) :
    ∀ r i, r ≤ numKeys → i < numKeys →
      attemptLoop numKeys outcomes (numKeys - r) r i
        = (idxTrace numKeys r i, ChatResult.exhausted) := by
  intro r
  induction r with
  | zero => intro i _ _; rfl
  | succ r ih =>
    intro i hr hi
    have hNpos : 0 < numKeys := lt_of_lt_of_le (Nat.succ_pos r) hr
    have hne : ¬ numKeys = 0 := by omega
    have hattempt : numKeys - (r + 1) < numKeys := by omega
    have hsucc : numKeys - (r + 1) + 1 = numKeys - r := by omega
    have hmod : (i + 1) % numKeys < numKeys := Nat.mod_lt _ hNpos
    have hieq : i % numKeys = i := Nat.mod_eq_of_lt hi
    rw [idxTrace_succ, hieq]
    have hf := hfail (numKeys - (r + 1)) hattempt
    cases houtcome : outcomes (numKeys - (r + 1)) with
    | status s =>
      rw [houtcome] at hf
      simp only [attemptFails] at hf
      rw [attemptLoop_rotate numKeys outcomes _ r i s hne houtcome hf, hsucc,
        ih ((i + 1) % numKeys) (by omega) hmod]
    | thrown =>
      rw [attemptLoop_thrown numKeys outcomes _ r i hne houtcome]
      cases r with
      | zero =>
        rw [idxTrace_zero]
        rfl
      | succ r' =>
        have hlt : numKeys - (r' + 1 + 1) < numKeys - 1 := by omega
        rw [if_pos hlt, hsucc, ih ((i + 1) % numKeys) (by omega) hmod]

/-- C2: with a credential pool of size `numKeys ≥ 1`, on any run in which
every attempt fails with HTTP 429, 401, 403 or a throw (network error),
`chatCompletion` and `chatCompletionStream` make exactly `numKeys` attempts,
the attempts use the pairwise-distinct key indices `i0, i0+1, …` modulo the
pool size, and the call ends with the terminal
`All OpenRouter API keys exhausted or failed` error. -/
theorem chatCompletion_rotates_through_all_keys
    (numKeys i0 : Nat) (outcomes : Nat → Outcome)
    (_hN : 1 ≤ numKeys) (hi : i0 < numKeys)
    (hfail : ∀ k, k < numKeys → attemptFails (outcomes k)) :
    chatCompletion numKeys i0 outcomes
        = (idxTrace numKeys numKeys i0, ChatResult.exhausted)
      ∧ (chatCompletion numKeys i0 outcomes).1.length = numKeys
      ∧ (chatCompletion numKeys i0 outcomes).1.Nodup
      ∧ chatCompletionStream numKeys i0 outcomes
        = (idxTrace numKeys numKeys i0, ChatResult.exhausted) := by
  have h := attemptLoop_all_fail numKeys outcomes hfail numKeys i0 (le_refl _) hi
  rw [Nat.sub_self] at h
  refine ⟨h, ?_, ?_, h⟩
  · rw [show chatCompletion numKeys i0 outcomes = attemptLoop numKeys outcomes 0 numKeys i0 from rfl,
      h, length_idxTrace]
  · rw [show chatCompletion numKeys i0 outcomes = attemptLoop numKeys outcomes 0 numKeys i0 from rfl,
      h]
    exact idxTrace_nodup numKeys i0

/-- C2 witness: a pool of 3 keys starting at index 0, every attempt
answering HTTP 429, attempts keys 0, 1, 2 and then exhausts. -/
theorem chatCompletion_rotates_through_all_keys_witness :
    chatCompletion 3 0 (fun _ => Outcome.status 429)
        = (idxTrace 3 3 0, ChatResult.exhausted)
      ∧ (chatCompletion 3 0 (fun _ => Outcome.status 429)).1.Nodup
      ∧ idxTrace 3 3 0 = [0, 1, 2] :=
  ⟨(chatCompletion_rotates_through_all_keys 3 0 (fun _ => Outcome.status 429)
      (by decide) (by decide) (by decide)).1,
   (chatCompletion_rotates_through_all_keys 3 0 (fun _ => Outcome.status 429)
      (by decide) (by decide) (by decide)).2.2.1,
   by decide⟩

/-- C3: a query whose extraction-plus-expansion yields zero keywords makes
`retrieveChunks` return the empty list with zero queries to the chunk
store. -/
theorem retrieveChunks_empty_keywords (store : List Str → Option (List Row))
    (query : Str) (topK : Nat) (h : expandKeywords query = []) :
    retrieveChunks true store query topK = Except.ok ([], 0) := by
  simp [retrieveChunks, h]

/-- C3 witness: the query `hi` (its only token is shorter than 3
characters) yields zero keywords and an empty, store-free result. -/
theorem retrieveChunks_empty_keywords_witness :
    retrieveChunks true (fun _ => none) (str "hi") 5 = Except.ok ([], 0)
      ∧ expandKeywords (str "hi") = [] :=
  ⟨retrieveChunks_empty_keywords (fun _ => none) (str "hi") 5 (by decide), by decide⟩

/-- C8 counterexample: with an empty key pool the attempt loop body never
runs, so `chatCompletion` (and the stream variant) raises the exhaustion
error `All OpenRouter API keys exhausted or failed`, not the configuration
error `No OpenRouter API keys configured` of `getCurrentKey` — which is
unreachable. -/
theorem chatCompletion_emptyPool_counterexample :
    chatCompletion 0 0 (fun _ => Outcome.thrown) = ([], ChatResult.exhausted)
      ∧ chatCompletionStream 0 0 (fun _ => Outcome.thrown) = ([], ChatResult.exhausted)
      ∧ ChatResult.exhausted ≠ ChatResult.configError := by
  decide

/-- C8 (amended): with an empty key pool, `chatCompletion` and
`chatCompletionStream` fail fast with zero attempts and zero rotations, but
the error raised is the exhaustion error rather than `getCurrentKey`'s
configuration error; with unset Supabase credentials, `retrieveChunks`
fails fast with the configuration error and never queries the store. -/
theorem config_missing_fails_fast :
    (∀ (i0 : Nat) (outcomes : Nat → Outcome),
        chatCompletion 0 i0 outcomes = ([], ChatResult.exhausted)
          ∧ chatCompletionStream 0 i0 outcomes = ([], ChatResult.exhausted))
      ∧ (∀ (store : List Str → Option (List Row)) (query : Str) (topK : Nat),
          retrieveChunks false store query topK
            = Except.error RetrievalError.supabaseNotConfigured) :=
  ⟨fun _ _ => ⟨rfl, rfl⟩, fun _ _ _ => rfl⟩

lemma selectLoop_sublist (maxContextTokens : Nat) :
    ∀ (l : List RetrievedChunk) (currentTokens : Nat),
      (selectLoop maxContextTokens l currentTokens).Sublist l := by
  intro l
  induction l with
  | nil => intro currentTokens; exact List.Sublist.refl _
  | cons chunk rest ih =>
    intro currentTokens
    simp only [selectLoop]
    split
    · exact List.Sublist.cons₂ chunk (ih _)
    · exact List.Sublist.cons chunk (ih _)

lemma selectLoop_budget (maxContextTokens : Nat) :
    ∀ (l : List RetrievedChunk) (currentTokens : Nat),
      currentTokens
          + ((selectLoop maxContextTokens l currentTokens).map
              (fun c => estimateTokens c.text)).sum
        ≤ maxContextTokens
        ∨ selectLoop maxContextTokens l currentTokens = [] := by
  intro l
  induction l with
  | nil => intro currentTokens; right; rfl
  | cons chunk rest ih =>
    intro currentTokens
    simp only [selectLoop]
    split
    · left
      rcases ih (currentTokens + estimateTokens chunk.text) with h | h
      · simp only [List.map_cons, List.sum_cons]
        omega
      · rw [h]
        simp only [List.map_cons, List.map_nil, List.sum_cons, List.sum_nil]
        omega
    · exact ih currentTokens

/-- C1: the chunks `buildPrompt` selects into `contextUsed` have token
estimates summing to at most `maxContextTokens`, and they appear in
descending similarity order (score order), not input order. -/
theorem buildPrompt_budget_and_order (userMessage : Str)
    (retrievedChunks : List RetrievedChunk) (maxContextTokens : Nat) :
    ((buildPrompt userMessage retrievedChunks maxContextTokens).contextUsed.map
        (fun c => estimateTokens c.text)).sum ≤ maxContextTokens
      ∧ (buildPrompt userMessage retrievedChunks maxContextTokens).contextUsed.Pairwise chunkGE := by
  have hsel : (buildPrompt userMessage retrievedChunks maxContextTokens).contextUsed
      = selectLoop maxContextTokens (sortChunks retrievedChunks) 0 := rfl
  constructor
  · rw [hsel]
    rcases selectLoop_budget maxContextTokens (sortChunks retrievedChunks) 0 with h | h
    · omega
    · rw [h]
      simp
  · rw [hsel]
    exact List.Pairwise.sublist (selectLoop_sublist maxContextTokens _ 0)
      (List.sorted_insertionSort chunkGE retrievedChunks)

/-- C7: keyword extraction keeps at most 5 terms before synonym expansion
and at most 10 after; every extracted term is a whitespace token of the
lowercased query, has length at least 3 and is not a stop-word. -/
theorem keyword_caps (query : Str) :
    (extractKeywords query).length ≤ 5
      ∧ (∀ t ∈ extractKeywords query,
          t ∈ jsWords (jsToLower query) ∧ 3 ≤ t.length ∧ t ∉ stopwords)
      ∧ (expandKeywords query).length ≤ 10 := by
  refine ⟨List.length_take_le 5 _, ?_, List.length_take_le 10 _⟩
  intro t ht
  have h1 := List.mem_filter.mp (List.mem_of_mem_take ht)
  refine ⟨h1.1, ?_⟩
  simpa using h1.2

/-- C7 witness: a concrete query with a stop-word, a short token and six
long tokens keeps 5 terms and expands within the cap of 10. -/
theorem keyword_caps_witness :
    (extractKeywords (str "the big statistics syllabus schedule semester yoga data")).length ≤ 5
      ∧ (str "statistics" ∈ jsWords (jsToLower (str "the big statistics syllabus schedule semester yoga data"))
          ∧ 3 ≤ (str "statistics").length ∧ str "statistics" ∉ stopwords)
      ∧ (expandKeywords (str "the big statistics syllabus schedule semester yoga data")).length ≤ 10 :=
  ⟨(keyword_caps (str "the big statistics syllabus schedule semester yoga data")).1,
   (keyword_caps (str "the big statistics syllabus schedule semester yoga data")).2.1
     (str "statistics") (by decide),
   (keyword_caps (str "the big statistics syllabus schedule semester yoga data")).2.2⟩

lemma scoreFold_eq (cont title : Str) :
    ∀ (l : List Str) (init : Nat),
      l.foldl (fun score kw =>
          let score := if includes cont kw then score + 1 else score
          if includes title kw then score + 3 else score) init
        = init + (l.map (fun kw =>
            3 * (if includes title kw then 1 else 0)
              + (if includes cont kw then 1 else 0))).sum := by
  intro l
  induction l with
  | nil => intro init; simp
  | cons kw rest ih =>
    intro init
    simp only [List.foldl_cons, List.map_cons, List.sum_cons, ih]
    by_cases hc : includes cont kw <;> by_cases ht : includes title kw <;>
      simp [hc, ht] <;> omega

lemma scoreRow_num (keywords : List Str) (row : Row) :
    (scoreRow keywords row).similarity.num
      = (keywords.map (fun kw =>
          3 * (if includes (jsToLower row.page_title) kw then 1 else 0)
            + (if includes (jsToLower row.content) kw then 1 else 0))).sum := by
  show keywords.foldl _ 0 = _
  rw [scoreFold_eq, Nat.zero_add]

/-- C4: the similarity `retrieveChunks` attaches to a candidate row is the
sum, over the expanded terms, of `title_match * 3 + body_match * 1`
(substring containment against the lowercased title and body), divided by
`terms * 4`. -/
theorem scoreRow_formula (keywords : List Str) (row : Row) :
    simVal (scoreRow keywords row).similarity
      = (((keywords.map (fun kw =>
            3 * (if includes (jsToLower row.page_title) kw then 1 else 0)
              + (if includes (jsToLower row.content) kw then 1 else 0))).sum : ℕ) : ℚ)
        / ((keywords.length * 4 : ℕ) : ℚ) := by
  have hnum := scoreRow_num keywords row
  have hden : (scoreRow keywords row).similarity.den = keywords.length * 4 := rfl
  rw [simVal, hnum, hden]

/-- A concrete database row used by witnesses. -/
def mathRow : Row :=
  { id := str "1", source_url := str "u", page_title := str "mathematics",
    content := str "mathematics" }

/-- A concrete one-row store used by witnesses. -/
def mathStore : List Str → Option (List Row) := fun _ => some [mathRow]

/-- A concrete local chunk used by witnesses. -/
def mathLocal : LocalChunk :=
  { page_title := str "mathematics", text := str "mathematics" }

/-- Two equal-score chunks used to exercise sort stability. -/
def chunkA : RetrievedChunk :=
  { chunk_id := str "a", source_url := str "u", page_title := str "t",
    text := str "x", similarity := { num := 1, den := 2 } }

/-- Two equal-score chunks used to exercise sort stability. -/
def chunkB : RetrievedChunk :=
  { chunk_id := str "b", source_url := str "u", page_title := str "t",
    text := str "y", similarity := { num := 1, den := 2 } }

/-- Any successful `retrieveChunks` result is either empty or the ranked
top-K of the scored fetched rows. -/
lemma retrieveChunks_ok_shape (cfgOk : Bool) (store : List Str → Option (List Row))
    (query : Str) (topK : Nat) (res : List RetrievedChunk × Nat)
    (h : retrieveChunks cfgOk store query topK = Except.ok res) :
    res.1 = []
      ∨ ∃ data, store (expandKeywords query) = some data
          ∧ res.1 = rankChunks (scoreChunks (expandKeywords query) data) topK := by
  cases cfgOk with
  | false => simp [retrieveChunks] at h
  | true =>
    simp only [retrieveChunks, Bool.not_true, Bool.false_eq_true, if_false] at h
    split at h
    · cases h; exact Or.inl rfl
    · split at h
      · cases h; exact Or.inl rfl
      · split at h
        · cases h; exact Or.inl rfl
        · cases h
          exact Or.inr ⟨_, by assumption, rfl⟩

lemma mem_rankChunks {c : RetrievedChunk} {scored : List RetrievedChunk} {topK : Nat}
    (h : c ∈ rankChunks scored topK) : c ∈ scored :=
  (List.perm_insertionSort chunkGE scored).subset (List.mem_of_mem_take h)

/-- A fold whose every step grows by at most `k` is bounded by
`k * length`. -/
lemma foldl_le_of_step (f : Nat → Str → Nat) (k : Nat)
    (hf : ∀ init w, f init w ≤ init + k) :
    ∀ (l : List Str) (init : Nat), l.foldl f init ≤ init + k * l.length := by
  intro l
  induction l with
  | nil => intro init; simp
  | cons w rest ih =>
    intro init
    rw [List.foldl_cons]
    have h1 := ih (f init w)
    have h2 := hf init w
    have h3 : k * (rest.length + 1) = k * rest.length + k := Nat.mul_succ k rest.length
    simp only [List.length_cons]
    omega

lemma scoreRow_num_le (keywords : List Str) (row : Row) :
    (scoreRow keywords row).similarity.num ≤ 4 * keywords.length := by
  have h := foldl_le_of_step
    (fun score kw =>
      let score := if includes (jsToLower row.content) kw then score + 1 else score
      if includes (jsToLower row.page_title) kw then score + 3 else score) 4
    (by
      intro init w
      dsimp only
      split <;> split <;> omega)
    keywords 0
  simpa using h

lemma scoreLocal_num_le (queryWords : List Str) (chunk : LocalChunk) :
    (scoreLocal queryWords chunk).similarity.num ≤ 3 * queryWords.length := by
  have h := foldl_le_of_step
    (fun score word =>
      if word.length < 3 then score
      else
        let score := if includes (jsToLower chunk.text) word then score + 1 else score
        if includes (jsToLower chunk.page_title) word then score + 2 else score) 3
    (by
      intro init w
      dsimp only
      split
      · omega
      · split <;> split <;> omega)
    queryWords 0
  simpa using h

lemma simVal_nonneg (x : JsNum) : 0 ≤ simVal x :=
  div_nonneg (Nat.cast_nonneg _) (Nat.cast_nonneg _)

/-- `num ≤ c * den` bounds the value of the quotient by `c` (vacuously when
the denominator is zero, where the value is zero). -/
lemma simVal_le_of_num_le (x : JsNum) (c : Nat) (h : x.num ≤ c * x.den) :
    simVal x ≤ (c : ℚ) := by
  rcases Nat.eq_zero_or_pos x.den with hd | hd
  · simp [simVal, hd]
  · rw [simVal, div_le_iff₀ (by exact_mod_cast hd)]
    exact_mod_cast h

/-- C5 (part of C6 as well): every successful `retrieveChunks` result is in
descending similarity order, has at most `topK` entries, and the sort is
stable: two chunks of equal score stay in storage order. -/
theorem retrieveChunks_ranking :
    (∀ (cfgOk : Bool) (store : List Str → Option (List Row)) (query : Str)
        (topK : Nat) (res : List RetrievedChunk × Nat),
      retrieveChunks cfgOk store query topK = Except.ok res →
        res.1.Pairwise chunkGE ∧ res.1.length ≤ topK)
      ∧ (∀ (scored : List RetrievedChunk) (topK : Nat) (x y : RetrievedChunk),
          simVal x.similarity = simVal y.similarity → ([x, y]).Sublist scored →
            ([x, y]).Sublist (sortChunks scored)
              ∧ rankChunks scored topK = (sortChunks scored).take topK) := by
  constructor
  · intro cfgOk store query topK res h
    rcases retrieveChunks_ok_shape cfgOk store query topK res h with h1 | ⟨data, _, h1⟩
    · rw [h1]
      exact ⟨List.Pairwise.nil, by simp⟩
    · rw [h1]
      refine ⟨?_, List.length_take_le topK _⟩
      exact List.Pairwise.sublist (List.take_sublist topK _)
        (List.sorted_insertionSort chunkGE _)
  · intro scored topK x y hxy hsub
    refine ⟨?_, rfl⟩
    refine List.sublist_insertionSort ?_ hsub
    rw [List.pairwise_cons]
    exact ⟨fun a ha => by rw [List.mem_singleton.mp ha, chunkGE, hxy], List.pairwise_singleton _ _⟩

/-- C5 witness: a one-row store gives a one-chunk ranked result, and two
equal-score chunks keep their storage order through the stable sort. -/
theorem retrieveChunks_ranking_witness :
    ((rankChunks [scoreRow (expandKeywords (str "mathematics")) mathRow] 5).Pairwise chunkGE
      ∧ (rankChunks [scoreRow (expandKeywords (str "mathematics")) mathRow] 5).length ≤ 5)
      ∧ ([chunkA, chunkB]).Sublist (sortChunks [chunkA, chunkB]) :=
  ⟨retrieveChunks_ranking.1 true mathStore (str "mathematics") 5
      (rankChunks [scoreRow (expandKeywords (str "mathematics")) mathRow] 5, 1) rfl,
   (retrieveChunks_ranking.2 [chunkA, chunkB] 5 chunkA chunkB rfl (List.Sublist.refl _)).1⟩

/-- C6 (amended): similarities from `retrieveChunks` lie in `[0, 1]`;
similarities from `retrieveChunksLocal` are non-negative but only bounded
by 3, because the score, up to 3 per word, is divided by the raw query word
count. -/
theorem similarity_bounds :
    (∀ (cfgOk : Bool) (store : List Str → Option (List Row)) (query : Str)
        (topK : Nat) (res : List RetrievedChunk × Nat),
      retrieveChunks cfgOk store query topK = Except.ok res →
        ∀ c ∈ res.1, 0 ≤ simVal c.similarity ∧ simVal c.similarity ≤ 1)
      ∧ (∀ (chunksFile : Option (List LocalChunk)) (query : Str) (topK : Nat),
          ∀ c ∈ retrieveChunksLocal chunksFile query topK,
            0 ≤ simVal c.similarity ∧ simVal c.similarity ≤ 3) := by
  constructor
  · intro cfgOk store query topK res h c hc
    refine ⟨simVal_nonneg _, ?_⟩
    rcases retrieveChunks_ok_shape cfgOk store query topK res h with h1 | ⟨data, _, h1⟩
    · rw [h1] at hc; cases hc
    · rw [h1] at hc
      rcases List.mem_map.mp (mem_rankChunks hc) with ⟨row, _, rfl⟩
      have hle := scoreRow_num_le (expandKeywords query) row
      have hden : (scoreRow (expandKeywords query) row).similarity.den
          = (expandKeywords query).length * 4 := rfl
      have h1le := simVal_le_of_num_le (scoreRow (expandKeywords query) row).similarity 1
        (by rw [hden]; omega)
      simpa using h1le
  · intro chunksFile query topK c hc
    refine ⟨simVal_nonneg _, ?_⟩
    cases chunksFile with
    | none => cases hc
    | some chunks =>
      have hmem : c ∈ (chunks.map (scoreLocal (jsWords (jsToLower query)))).filter
          (fun c => c.similarity.posB) :=
        (List.perm_insertionSort localGE _).subset (List.mem_of_mem_take hc)
      rcases List.mem_map.mp (List.mem_filter.mp hmem).1 with ⟨chunk, _, rfl⟩
      have hle := scoreLocal_num_le (jsWords (jsToLower query)) chunk
      have hden : (scoreLocal (jsWords (jsToLower query)) chunk).similarity.den
          = (jsWords (jsToLower query)).length := rfl
      have h3le := simVal_le_of_num_le (scoreLocal (jsWords (jsToLower query)) chunk).similarity 3
        (by rw [hden]; omega)
      simpa using h3le

/-- C6 counterexample: a single-word query matching both the title and the
body of a local chunk gets similarity 3, outside `[0, 1]`: the local scorer
awards up to 3 points per word but divides by the word count only. -/
theorem retrieveChunksLocal_similarity_above_one :
    (retrieveChunksLocal (some [mathLocal]) (str "mathematics") 5).map
        (fun c => c.similarity)
      = [{ num := 3, den := 1 }]
      ∧ (1 : ℚ) < simVal { num := 3, den := 1 } := by
  constructor
  · decide
  · rw [simVal]
    norm_num

/-- C6 witness: a concrete Supabase-path chunk has similarity `8 / 20`,
inside `[0, 1]`, and a concrete local chunk has similarity inside
`[0, 3]`. -/
theorem similarity_bounds_witness :
    (0 ≤ simVal { num := 8, den := 20 } ∧ simVal { num := 8, den := 20 } ≤ 1)
      ∧ (0 ≤ simVal { num := 3, den := 1 } ∧ simVal { num := 3, den := 1 } ≤ 3) :=
  ⟨similarity_bounds.1 true mathStore (str "mathematics") 5
      ([scoreRow (expandKeywords (str "mathematics")) mathRow], 1) rfl
      (scoreRow (expandKeywords (str "mathematics")) mathRow) (by decide),
   similarity_bounds.2 (some [mathLocal]) (str "mathematics") 5
      (scoreLocal (jsWords (jsToLower (str "mathematics"))) mathLocal) (by decide)⟩

/-- C10: `buildPrompt` leaves its `retrievedChunks` argument untouched (the
sort of line 108 runs on a spread copy) and returns the user message
verbatim as `userPrompt`. -/
theorem buildPrompt_frame (userMessage : Str) (retrievedChunks : List RetrievedChunk)
    (maxContextTokens : Nat) :
    (buildPromptF userMessage retrievedChunks maxContextTokens).2 = retrievedChunks
      ∧ (buildPrompt userMessage retrievedChunks maxContextTokens).userPrompt = userMessage :=
  ⟨rfl, rfl⟩

/-- Every sentence fed to the chunk loop (or already in the current window)
ends up in a flushed window: either one kept as a chunk or one discarded
for being under the word-count minimum. -/
lemma chunkLoop_covers :
    ∀ (sents : List Str) (cur : List Str) (cnt : Nat) (s : Str),
      (s ∈ sents ∨ s ∈ cur) →
      (∃ wc, wc ∈ (chunkLoop sents cur cnt).1 ∧ s ∈ wc.1)
        ∨ (∃ w, w ∈ (chunkLoop sents cur cnt).2 ∧ s ∈ w) := by
  intro sents
  induction sents with
  | nil =>
    intro cur cnt s hs
    rcases hs with h | h
    · cases h
    · have hne : ¬ cur.length = 0 := by
        intro h0
        rw [List.length_eq_zero.mp h0] at h
        cases h
      simp only [chunkLoop, if_neg hne]
      split
      · exact Or.inl ⟨(cur, cnt), List.mem_singleton_self _, h⟩
      · exact Or.inr ⟨cur, List.mem_singleton_self _, h⟩
  | cons sentence rest ih =>
    intro cur cnt s hs
    simp only [chunkLoop]
    split
    · -- flush: the current window is emitted (kept or discarded)
      rcases hs with h | h
      · -- the sentence goes into the fresh overlap window; recurse
        have hmem : s ∈ rest
            ∨ s ∈ cur.drop (cur.length - 2) ++ [sentence] := by
          rcases List.mem_cons.mp h with rfl | hr
          · exact Or.inr (List.mem_append_right _ (List.mem_singleton_self _))
          · exact Or.inl hr
        rcases ih (cur.drop (cur.length - 2) ++ [sentence])
            (wordCount (List.intercalate (str " ") (cur.drop (cur.length - 2)))
              + wordCount sentence) s hmem with ⟨wc, hwc, hsw⟩ | ⟨w, hw, hsw⟩
        · split
          · exact Or.inl ⟨wc, List.mem_cons_of_mem _ hwc, hsw⟩
          · exact Or.inl ⟨wc, hwc, hsw⟩
        · split
          · exact Or.inr ⟨w, hw, hsw⟩
          · exact Or.inr ⟨w, List.mem_cons_of_mem _ hw, hsw⟩
      · -- the sentence sits in the window being flushed
        split
        · exact Or.inl ⟨(cur, cnt), List.mem_cons_self _ _, h⟩
        · exact Or.inr ⟨cur, List.mem_cons_self _ _, h⟩
    · -- no flush: the sentence is appended to the current window
      refine ih (cur ++ [sentence]) (cnt + wordCount sentence) s ?_
      rcases hs with h | h
      · rcases List.mem_cons.mp h with rfl | hr
        · exact Or.inr (List.mem_append_right _ (List.mem_singleton_self _))
        · exact Or.inl hr
      · exact Or.inr (List.mem_append_left _ h)

/-- C9 (amended): every sentence of a source document lands in a flushed
window of the chunker: in the window of a chunk `chunkSourceBlock`
actually produces, or in a window silently discarded for being under the
word-count minimum (`MIN_CHUNK_WORDS` mid-stream, `MIN_CHUNK_WORDS / 2`
for the final window).  Sentences of discarded windows can be absent from
every produced chunk, so concatenating the chunks is a superset of the
source only when no window is discarded. -/
theorem chunk_coverage (block : SourceBlock) (s : Str)
    (h : s ∈ splitIntoSentences block.text_content) :
    (∃ wc, wc ∈ (chunkWindows block.text_content).1 ∧ s ∈ wc.1
        ∧ windowChunk block wc ∈ chunkSourceBlock block)
      ∨ (∃ w, w ∈ (chunkWindows block.text_content).2 ∧ s ∈ w) := by
  rcases chunkLoop_covers (splitIntoSentences block.text_content) [] 0 s (Or.inl h) with
    ⟨wc, hwc, hsw⟩ | hw
  · exact Or.inl ⟨wc, hwc, hsw, List.mem_map_of_mem _ hwc⟩
  · exact Or.inr hw

/-- C9 witness: the single sentence of a three-word document lands in the
(discarded) final window. -/
theorem chunk_coverage_witness :
    (∃ wc, wc ∈ (chunkWindows (str "Hi there everyone.")).1
        ∧ str "Hi there everyone." ∈ wc.1
        ∧ windowChunk
            { source_url := str "u", page_title := str "t",
              text_content := str "Hi there everyone." } wc
          ∈ chunkSourceBlock
            { source_url := str "u", page_title := str "t",
              text_content := str "Hi there everyone." })
      ∨ (∃ w, w ∈ (chunkWindows (str "Hi there everyone.")).2
          ∧ str "Hi there everyone." ∈ w) :=
  chunk_coverage
    { source_url := str "u", page_title := str "t",
      text_content := str "Hi there everyone." }
    (str "Hi there everyone.") (by decide)

/-- C9 counterexample: a document whose only sentence has three words
(under `MIN_CHUNK_WORDS / 2`) produces no chunks at all, so its sentence is
absent from every chunk and no concatenation of chunk texts covers the
source. -/
theorem chunkSourceBlock_drops_short_document :
    splitIntoSentences (str "Hi there everyone.") = [str "Hi there everyone."]
      ∧ chunkSourceBlock
          { source_url := str "u", page_title := str "t",
            text_content := str "Hi there everyone." } = [] := by
  decide

end IIMSambalpurGpt
